import Mathlib

/-!
Shallow embedding of the `journald` crate (nyantec/rust-journald): the journal
reader/writer binding over the systemd journal primitives.

Conventions of the embedding:
* The external store primitives (`sd_journal_*`) return signed statuses and
  write through out-parameters; each embedded operation takes an environment
  record holding the status and the written value for every primitive call the
  operation makes, in program order.
* `std::io::Error` values are modelled by `JError`: `validation` stands for the
  `NulError → io::Error` conversion produced by `CString::new` (kind
  `InvalidInput`), `io code` for `Error::from_raw_os_error(code)`.
* Rust `Result<α>` together with the possibility of a panic (an `unwrap` on
  `None`) is modelled by `RRes α`.
* Field values are modelled as `String`: the crate decodes every drained field
  with `String::from_utf8_lossy` and all synthetic values are strings, so the
  byte/string distinction never matters for the properties proved here.
* `BTreeMap<String, _>` is modelled as an association list with
  replace-on-insert semantics (`insertField`); only `lookupField` observations
  are used, for which this is a faithful map model.
-/

namespace Journald

/-- Error values of the crate: `validation` models the `io::Error` built from
`CString::new`'s `NulError` (an embedded NUL byte), `io code` models
`Error::from_raw_os_error(code)`. -/
inductive JError : Type where
  | validation : JError
  | io : Int → JError
deriving DecidableEq, Repr

/-- Outcome of a fallible Rust computation: `Ok`, `Err`, or a panic
(an `unwrap()` of `None`). -/
inductive RRes (α : Type) : Type where
  | ok : α → RRes α
  | err : JError → RRes α
  | panicked : RRes α
deriving DecidableEq, Repr

/-- `libc::EINVAL` on Linux. -/
def EINVAL : Int := 22

/-- `libc::EOVERFLOW` on Linux. -/
def EOVERFLOW : Int := 75

/-- `u64::MAX`. -/
def U64_MAX : Nat := 2 ^ 64 - 1

/-- `ffi_result` from `src/lib.rs`: a negative status becomes
`Err(Error::from_raw_os_error(-ret))`, otherwise the status is passed on. -/
def ffi_result (ret : Int) : RRes Int :=
  if ret < 0 then .err (.io (-ret)) else .ok ret

/-- The field map of an entry: association list with replace-on-insert,
modelling `BTreeMap<String, _>`. -/
abbrev Fields : Type := List (String × String)

/-- `BTreeMap::insert`: replace the value of an existing key, otherwise add
the binding. -/
def insertField : Fields → String → String → Fields
  | [], k, v => [(k, v)]
  | (k', v') :: rest, k, v =>
    if k' = k then (k, v) :: rest else (k', v') :: insertField rest k v

/-- `BTreeMap::get`. -/
def lookupField : Fields → String → Option String
  | [], _ => none
  | (k', v') :: rest, k => if k' = k then some v' else lookupField rest k

/-- `i64::MAX` as a natural number. -/
def I64_MAX : Nat := 2 ^ 63 - 1

/-- Rust `str::parse::<i64>()`: optional single leading sign, then one or more
ASCII digits, rejecting the empty digit string, any other character, and any
value outside the `i64` range. -/
def parse_i64 (s : String) : Option Int :=
  let signDigits : Int × List Char :=
    match s.data with
    | '+' :: r => (1, r)
    | '-' :: r => (-1, r)
    | r => (1, r)
  let sign := signDigits.1
  let ds := signDigits.2
  if ds = [] then none
  else if ds.all Char.isDigit then
    let n : Nat := ds.foldl (fun a c => a * 10 + (c.toNat - '0'.toNat)) 0
    if sign = 1 then
      if n ≤ I64_MAX then some (n : Int) else none
    else
      if n ≤ I64_MAX + 1 then some (-(n : Int)) else none
  else none

/-- `JournalEntryTimestamp` from `src/journal_entry.rs`. -/
structure JournalEntryTimestamp : Type where
  timestamp_us : Int
deriving DecidableEq, Repr

/-- `JournalEntry` from `src/journal_entry.rs`. -/
structure JournalEntry : Type where
  fields : Fields
deriving DecidableEq

/-- `JournalEntry::get_field_string_lossy`: with string-modelled values the
lossy decoding is the identity, so this is a map lookup. -/
def JournalEntry.get_field_string_lossy (e : JournalEntry) (field : String) :
    Option String :=
  lookupField e.fields field

/-- `JournalEntry::get_message`. -/
def JournalEntry.get_message (e : JournalEntry) : Option String :=
  e.get_field_string_lossy ("MESSAGE")

/-- `JournalEntry::get_source_wallclock_time`. -/
def JournalEntry.get_source_wallclock_time (e : JournalEntry) :
    Option JournalEntryTimestamp :=
  ((e.get_field_string_lossy ("_SOURCE_REALTIME_TIMESTAMP")).bind parse_i64).map
    (fun v => { timestamp_us := v })

/-- `JournalEntry::get_reception_wallclock_time`. -/
def JournalEntry.get_reception_wallclock_time (e : JournalEntry) :
    Option JournalEntryTimestamp :=
  ((e.get_field_string_lossy ("__REALTIME_TIMESTAMP")).bind parse_i64).map
    (fun v => { timestamp_us := v })

/-- `JournalEntry::get_wallclock_time`: `source_time.or(reception_time)`. -/
def JournalEntry.get_wallclock_time (e : JournalEntry) :
    Option JournalEntryTimestamp :=
  (e.get_source_wallclock_time).or (e.get_reception_wallclock_time)

/-- Monadic sequencing of fallible computations (Rust's `?` operator),
propagating errors and panics. -/
def RRes.bind {α β : Type} : RRes α → (α → RRes β) → RRes β
  | .ok a, f => f a
  | .err e, _ => .err e
  | .panicked, _ => .panicked

/-- `str::splitn(2, '=')`, first component: the characters before the first
`'='` (the whole string if there is none). -/
def eq_split_name (s : String) : String :=
  String.mk (s.data.takeWhile (fun c => c ≠ '='))

/-- `str::splitn(2, '=')`, second component: the characters after the first
`'='`, or `none` when the string contains no `'='` (in which case
`current_entry`'s `name_value.next().unwrap()` panics). -/
def eq_split_value (s : String) : Option String :=
  if s.data.any (fun c => c = '=') then
    some (String.mk ((s.data.dropWhile (fun c => c ≠ '=')).tail))
  else none

/-- The field-drain loop body of `current_entry` (src/reader/mod.rs): each
drained record is split at the first `'='` and inserted into the map; a record
without `'='` makes the loop panic (`none`). -/
def drain_fields : Fields → List String → Option Fields
  | flds, [] => some flds
  | flds, r :: rest =>
    match eq_split_value r with
    | none => none
    | some v => drain_fields (insertField flds (eq_split_name r) v) rest

/-- Environment of one `current_entry` call: the successive return values of
the primitives it invokes, in program order. `enumerate` lists the successive
`sd_journal_enumerate_data` returns as (status, lossily-decoded data); the
data is meaningful only for a positive status. The remaining pairs are the
(status, out-parameter) results of `sd_journal_get_realtime_usec`,
`sd_journal_get_monotonic_usec` and `sd_journal_get_cursor`. -/
structure CurrentEntryEnv : Type where
  enumerate : List (Int × String)
  rt_status : Int
  rt_val : Nat
  mono_status : Int
  mono_val : Nat
  cursor_status : Int
  cursor_val : String
deriving DecidableEq, Repr

/-- The raw records processed by the drain loop: the data of every
`sd_journal_enumerate_data` call up to (excluding) the first non-positive
status. The loop condition is `ret > 0`, so a negative status terminates the
loop exactly as 0 does. -/
def drained_records (env : CurrentEntryEnv) : List String :=
  (env.enumerate.takeWhile (fun p => 0 < p.1)).map Prod.snd

/-- `JournalReader::current_entry` from src/reader/mod.rs: restart the data
enumeration, drain all fields, then fetch the realtime timestamp, monotonic
timestamp and cursor through `ffi_result(..)?` and insert them as synthetic
fields. Note that the drain loop itself does not route the enumerate status
through `ffi_result`. -/
def current_entry (env : CurrentEntryEnv) : RRes (Option JournalEntry) :=
  match drain_fields [] (drained_records env) with
  | none => .panicked
  | some flds =>
    (ffi_result env.rt_status).bind fun _ =>
      let flds := insertField flds ("__REALTIME_TIMESTAMP") (toString env.rt_val)
      (ffi_result env.mono_status).bind fun _ =>
        let flds := insertField flds ("__MONOTONIC_TIMESTAMP") (toString env.mono_val)
        (ffi_result env.cursor_status).bind fun _ =>
          let flds := insertField flds ("__CURSOR") env.cursor_val
          .ok (some { fields := flds })

/-- Environment of one `next_entry` (or `previous_entry`) call: the return of
the advance primitive (`sd_journal_next` resp. `sd_journal_previous`) and the
environment of the `current_entry` call made when the cursor advanced. -/
structure NextEnv : Type where
  advance_status : Int
  ce : CurrentEntryEnv
deriving DecidableEq, Repr

/-- `JournalReader::next_entry`: `Ok(None)` when `sd_journal_next` returns 0,
an error when it is negative, otherwise `current_entry`. -/
def next_entry (env : NextEnv) : RRes (Option JournalEntry) :=
  (ffi_result env.advance_status).bind fun ret =>
    if ret = 0 then .ok none else current_entry env.ce

/-- `JournalReader::previous_entry`: same shape as `next_entry` over
`sd_journal_previous`. -/
def previous_entry (env : NextEnv) : RRes (Option JournalEntry) :=
  (ffi_result env.advance_status).bind fun ret =>
    if ret = 0 then .ok none else current_entry env.ce

/-- `WakeupType` from src/reader/mod.rs. -/
inductive WakeupType : Type where
  | NOP
  | APPEND
  | INVALIDATE
deriving DecidableEq, Repr

/-- `WakeupType::try_from(i32)`: 0, 1, 2 map to the three wakeup kinds, any
other value is an `EINVAL` error. -/
def WakeupType.try_from (value : Int) : RRes WakeupType :=
  if value = 0 then .ok .NOP
  else if value = 1 then .ok .APPEND
  else if value = 2 then .ok .INVALIDATE
  else .err (.io EINVAL)

/-- Environment of one wait call: the return status of `sd_journal_wait`. -/
structure WaitEnv : Type where
  wait_status : Int
deriving DecidableEq, Repr

/-- `JournalReader::wait_usec`: route the `sd_journal_wait` status through
`ffi_result` and classify it with `WakeupType::try_from`. -/
def wait_usec (env : WaitEnv) (_usec : Nat) : RRes WakeupType :=
  (ffi_result env.wait_status).bind fun ret => WakeupType.try_from ret

/-- `std::time::Duration`: seconds and the sub-second nanoseconds. -/
structure Duration : Type where
  secs : Nat
  nanos : Nat
deriving DecidableEq, Repr

/-- `Duration::as_micros`: the whole number of microseconds (a `u128`; no
overflow is possible for Rust durations, so plain `Nat` is faithful). -/
def Duration.as_micros (d : Duration) : Nat :=
  d.secs * 1000000 + d.nanos / 1000

/-- `duration_to_usec` from src/reader/mod.rs: `EOVERFLOW` when the
microsecond count exceeds `u64::MAX`, otherwise the count cast `as u64`. -/
def duration_to_usec (d : Duration) : RRes Nat :=
  if d.as_micros > U64_MAX then .err (.io EOVERFLOW)
  else .ok (d.as_micros % 2 ^ 64)

/-- `JournalReader::wait_timeout`. -/
def wait_timeout (env : WaitEnv) (timeout : Duration) : RRes WakeupType :=
  (duration_to_usec timeout).bind fun usec => wait_usec env usec

/-- `JournalReader::wait`: an unbounded wait, passing `u64::MAX`. -/
def wait (env : WaitEnv) : RRes WakeupType :=
  wait_usec env U64_MAX

/-- `JournalSeek` from src/reader/mod.rs. -/
inductive JournalSeek : Type where
  | Head
  | Tail
  | Cursor (cursor : String)
deriving DecidableEq, Repr

/-- Environment of one `seek` call: the statuses of the three seek
primitives (only the one for the selected variant is consulted). -/
structure SeekEnv : Type where
  head_status : Int
  tail_status : Int
  cursor_status : Int
deriving DecidableEq, Repr

/-- `CString::new` fails exactly when the string holds an embedded NUL
byte. -/
def has_nul (s : String) : Bool :=
  s.data.any (fun c => c = Char.ofNat 0)

/-- `JournalReader::seek`: the second component lists the store primitives
invoked by the call, in order. For `Cursor(token)`, `CString::new(token)?`
runs before the primitive, so an embedded NUL yields a validation error with
no primitive invoked. -/
def seek (env : SeekEnv) : JournalSeek → RRes Unit × List String
  | .Head =>
    ((ffi_result env.head_status).bind fun _ => .ok (), ["sd_journal_seek_head"])
  | .Tail =>
    ((ffi_result env.tail_status).bind fun _ => .ok (), ["sd_journal_seek_tail"])
  | .Cursor cur =>
    if has_nul cur then (.err .validation, [])
    else
      ((ffi_result env.cursor_status).bind fun _ => .ok (),
        ["sd_journal_seek_cursor"])

/-- `JournalFiles` from src/reader/mod.rs. -/
inductive JournalFiles : Type where
  | System
  | CurrentUser
  | All
deriving DecidableEq, Repr

/-- `JournalReaderConfig` from src/reader/mod.rs (with the namespace-feature
fields included). -/
structure JournalReaderConfig : Type where
  files : JournalFiles
  only_volatile : Bool
  only_local : Bool
  all_namespaces : Bool
  include_default_namespace : Bool
deriving DecidableEq, Repr

def SD_JOURNAL_LOCAL_ONLY : Nat := 1
def SD_JOURNAL_RUNTIME_ONLY : Nat := 2
def SD_JOURNAL_SYSTEM : Nat := 4
def SD_JOURNAL_CURRENT_USER : Nat := 8
def SD_JOURNAL_ALL_NAMESPACES : Nat := 32
def SD_JOURNAL_INCLUDE_DEFAULT_NAMESPACE : Nat := 64

/-- The flag mask computed at the top of `JournalReader::open_namespace`. -/
def namespace_flags (config : JournalReaderConfig) : Nat :=
  (if config.only_volatile then SD_JOURNAL_RUNTIME_ONLY else 0) |||
  (if config.only_local then SD_JOURNAL_LOCAL_ONLY else 0) |||
  (match config.files with
    | .System => SD_JOURNAL_SYSTEM
    | .CurrentUser => SD_JOURNAL_CURRENT_USER
    | .All => 0) |||
  (if config.all_namespaces then SD_JOURNAL_ALL_NAMESPACES else 0) |||
  (if config.include_default_namespace then
    SD_JOURNAL_INCLUDE_DEFAULT_NAMESPACE else 0)

/-- Environment of one open call: the status of the open primitive. -/
structure OpenEnv : Type where
  open_status : Int
deriving DecidableEq, Repr

/-- `JournalReader::open_namespace`: flags are computed, then
`CString::new(ns)?` runs while the primitive call's arguments are evaluated,
so an embedded NUL in the namespace string fails with a validation error
before `sd_journal_open_namespace` is invoked. The result carries the flag
mask the reader was opened with; the second component lists the store
primitives invoked. -/
def open_namespace (config : JournalReaderConfig) (ns : String) (env : OpenEnv) :
    RRes Nat × List String :=
  let flags := namespace_flags config
  if has_nul ns then (.err .validation, [])
  else if env.open_status < 0 then
    (.err (.io (-env.open_status)), ["sd_journal_open_namespace"])
  else (.ok flags, ["sd_journal_open_namespace"])

/-- The `sd_journal_sendv` primitive (spec §6): one call hands over one
atomic batch of `name=value` records; on a non-negative status the whole
batch is appended to the store as a single record, on a negative status
nothing is appended. The status is chosen by the environment. -/
def sd_journal_sendv (store : List (List String)) (status : Int)
    (batch : List String) : Int × List (List String) :=
  (status, if 0 ≤ status then store ++ [batch] else store)

/-- `send` from src/journal_writer.rs: converts the argument strings to
iovecs and makes exactly one `sd_journal_sendv` call carrying all of them,
returning the raw status. -/
def send (args : List String) (store : List (List String)) (status : Int) :
    Int × List (List String) :=
  sd_journal_sendv store status args

/-- Modelled from the spec: the field-name charset (§3) — uppercase ASCII
letters, digits and underscore. -/
def valid_field_char (c : Char) : Bool :=
  ('A' ≤ c && c ≤ 'Z') || c.isDigit || c = '_'

/-- Modelled from the spec: a valid field name (§3) is non-empty, drawn from
the restricted charset, and does not start with a digit. -/
def valid_field_name (s : String) : Bool :=
  !s.data.isEmpty && !(s.data.headD 'A').isDigit && s.data.all valid_field_char

/-- Modelled from the spec: `writer::submit` is called by the repository's
tests (tests/journal.rs) but its definition is absent from src/ —
src/journal_writer.rs holds only the low-level `send`. Per spec §4.1, submit
validates every field name, serializes each field as `NAME=value`, and passes
the record list to the append primitive (`send`) as one atomic multi-field
submission; it fails with a validation error if any field name is invalid
(before any I/O) and with an I/O error carrying the negated status if the
append primitive reports a negative status. -/
def submit (e : JournalEntry) (store : List (List String)) (status : Int) :
    RRes Unit × List (List String) :=
  if e.fields.all (fun p => valid_field_name p.1) then
    let args := e.fields.map (fun p => p.1 ++ "=" ++ p.2)
    let r := send args store status
    (if r.1 < 0 then .err (.io (-r.1)) else .ok (), r.2)
  else (.err .validation, store)

/-- The environment of an iteration adapter: the results of the successive
`next_entry` calls and of the successive wait calls the adapter will make on
its reader. A script that runs out models a journal that stays quiet: further
`next_entry` calls return `Ok(None)` and further waits return `NOP`. -/
structure ReaderScript : Type where
  nexts : List (RRes (Option JournalEntry))
  waits : List (RRes WakeupType)
deriving DecidableEq

/-- Take the next scripted result, with a default once the script is
exhausted. -/
def pop_list {α : Type} (dflt : α) : List α → α × List α
  | [] => (dflt, [])
  | r :: rest => (r, rest)

/-- One `reader.next_entry()` call against the script. -/
def pop_next (s : ReaderScript) : RRes (Option JournalEntry) × ReaderScript :=
  let p := pop_list (.ok none) s.nexts
  (p.1, { s with nexts := p.2 })

/-- One wait call (`reader.wait()` or `reader.wait_usec(t)`) against the
script. -/
def pop_wait (s : ReaderScript) : RRes WakeupType × ReaderScript :=
  let p := pop_list (.ok .NOP) s.waits
  (p.1, { s with waits := p.2 })

/-- The outcome of one `Iterator::next()` call of an iteration adapter. -/
inductive IterStep : Type where
  | finished
  | yield (e : JournalEntry)
  | fail (e : JError)
  | panicked
deriving DecidableEq

/-- `Result<Option<Entry>>::transpose()` as used by both adapters:
`Ok(None)` ends the iteration, `Ok(Some(e))` yields the entry, `Err(e)`
yields the error. -/
def transpose_res : RRes (Option JournalEntry) → IterStep
  | .ok none => .finished
  | .ok (some e) => .yield e
  | .err e => .fail e
  | .panicked => .panicked

/-- `Iterator::next` for `JournalIter` (src/reader/iter.rs, body at lines
61-72; the struct declaration and the opening `let ret =
self.reader.next_entry();` are reconstructed from the construction site
`JournalReader::as_iter` and from the body's use of `ret`, by symmetry with
`next_wait`): call `next_entry`; when it returns `Ok(None)`, call the
unbounded `wait()` — yielding its error if it fails — and then yield the
result of one further `next_entry` call. -/
def journal_iter_next (s : ReaderScript) : IterStep × ReaderScript :=
  let r1 := pop_next s
  match r1.1 with
  | .ok none =>
    let w := pop_wait r1.2
    match w.1 with
    | .err e => (.fail e, w.2)
    | .panicked => (.panicked, w.2)
    | .ok _ =>
      let r2 := pop_next w.2
      (transpose_res r2.1, r2.2)
  | r => (transpose_res r, r1.2)

/-- The recursion of `JournalBlockingIter::next_wait` (src/reader/iter.rs
lines 37-50), with the reader's scripted results split into the two lists:
call `next_entry`; when it returns `Ok(None)`, call `wait_usec(timeout)`
(propagating its error); on a wakeup other than `NOP` recurse, on `NOP`
return one further `next_entry` call. -/
def next_wait_go : List (RRes (Option JournalEntry)) →
    List (RRes WakeupType) → RRes (Option JournalEntry) × ReaderScript
  | nexts, [] =>
    let r1 := pop_list (.ok none) nexts
    match r1.1 with
    | .ok none =>
      let r2 := pop_list (.ok none) r1.2
      (r2.1, ⟨r2.2, []⟩)
    | r => (r, ⟨r1.2, []⟩)
  | nexts, w :: waits1 =>
    let r1 := pop_list (.ok none) nexts
    match r1.1 with
    | .ok none =>
      match w with
      | .err e => (.err e, ⟨r1.2, waits1⟩)
      | .panicked => (.panicked, ⟨r1.2, waits1⟩)
      | .ok wk =>
        if wk = WakeupType.NOP then
          let r2 := pop_list (.ok none) r1.2
          (r2.1, ⟨r2.2, waits1⟩)
        else next_wait_go r1.2 waits1
    | r => (r, ⟨r1.2, w :: waits1⟩)

/-- `JournalBlockingIter::next_wait` against a script. -/
def next_wait (s : ReaderScript) : RRes (Option JournalEntry) × ReaderScript :=
  next_wait_go s.nexts s.waits

/-- `Iterator::next` for `JournalBlockingIter`:
`self.next_wait().transpose()`. -/
def blocking_iter_next (s : ReaderScript) : IterStep × ReaderScript :=
  let r := next_wait s
  (transpose_res r.1, r.2)

/-- `JournalBlockingIter`: a reader (scripted) plus the stored microsecond
timeout, initialized to `u64::MAX` by `as_blocking_iter`. -/
structure JournalBlockingIter : Type where
  script : ReaderScript
  timeout : Nat
deriving DecidableEq

/-- `JournalBlockingIter::set_timeout`: store
`duration_to_usec(timeout)?`. -/
def set_timeout (it : JournalBlockingIter) (timeout : Duration) :
    RRes JournalBlockingIter :=
  (duration_to_usec timeout).bind fun us => .ok { it with timeout := us }

/-- A sample entry used in the concrete evaluations below. -/
def entryX : JournalEntry :=
  { fields := [("MESSAGE", "x")] }

/-- A `current_entry` environment in which every primitive succeeds and the
record has no stored fields. -/
def ceQuiet : CurrentEntryEnv :=
  { enumerate := [], rt_status := 0, rt_val := 0, mono_status := 0,
    mono_val := 0, cursor_status := 0, cursor_val := "c" }

/-- `sd_journal_next` reports no further record. -/
def envZero : NextEnv :=
  { advance_status := 0, ce := ceQuiet }

/-- `sd_journal_next` fails with status -3. -/
def envNeg : NextEnv :=
  { advance_status := -3, ce := ceQuiet }

/-- The cursor advances, one field is drained successfully, then the
enumerate primitive fails with status -5; the remaining primitives
succeed. -/
def envSwallow : NextEnv :=
  { advance_status := 1
    ce := { enumerate := [(1, "A=1"), (-5, "")]
            rt_status := 0, rt_val := 7, mono_status := 0, mono_val := 8,
            cursor_status := 0, cursor_val := "c1" } }

/-- The cursor advances and the drain succeeds, but the realtime-timestamp
primitive fails with status -7. -/
def envAfterFail : NextEnv :=
  { advance_status := 1
    ce := { enumerate := [(1, "A=1"), (0, "")]
            rt_status := -7, rt_val := 0, mono_status := 0, mono_val := 0,
            cursor_status := 0, cursor_val := "c2" } }

/-- A drain yielding a value containing `'='` and a stored `__CURSOR` field
that the synthetic cursor must overwrite. -/
def ceOverride : CurrentEntryEnv :=
  { enumerate := [(1, "FOO=a=b"), (1, "__CURSOR=fake"), (0, "")]
    rt_status := 0, rt_val := 11, mono_status := 0, mono_val := 12,
    cursor_status := 0, cursor_val := "real" }

/-- A string with an embedded NUL byte. -/
def nulString : String :=
  String.mk [Char.ofNat 0, 'a']

/-- A sample reader configuration. -/
def cfgW : JournalReaderConfig :=
  { files := .All, only_volatile := false, only_local := false,
    all_namespaces := false, include_default_namespace := false }

/-- An entry holding one valid and one invalid field name. -/
def entryBadName : JournalEntry :=
  { fields := [("GOOD", "1"), ("2BAD", "x")] }

/-- An entry whose field names are all valid. -/
def entryGood : JournalEntry :=
  { fields := [("MESSAGE", "hi"), ("PRIORITY", "6")] }

/-- An entry carrying both a source and a reception timestamp. -/
def entryBothTimes : JournalEntry :=
  { fields := [("_SOURCE_REALTIME_TIMESTAMP", "5"),
               ("__REALTIME_TIMESTAMP", "9")] }

/-- A blocking iterator over an exhausted script. -/
def itW : JournalBlockingIter :=
  { script := { nexts := [], waits := [] }, timeout := 0 }

/-! Helper lemmas. -/

theorem lookupField_insertField_self (m : Fields) (k v : String) :
    lookupField (insertField m k v) k = some v := by
  induction m with
  | nil => simp [insertField, lookupField]
  | cons p rest ih =>
    by_cases h : p.1 = k
    · simp [insertField, lookupField, h]
    · simp [insertField, lookupField, h, ih]

theorem lookupField_insertField_ne (m : Fields) (k k' v : String) (h : k ≠ k') :
    lookupField (insertField m k v) k' = lookupField m k' := by
  induction m with
  | nil => simp [insertField, lookupField, h]
  | cons p rest ih =>
    by_cases hp : p.1 = k
    · simp [insertField, lookupField, hp, h]
    · by_cases hp' : p.1 = k'
      · simp [insertField, lookupField, hp, hp', Ne.symm h]
      · simp [insertField, lookupField, hp, hp', ih]

theorem current_entry_ne_ok_none (env : CurrentEntryEnv) :
    current_entry env ≠ RRes.ok none := by
  unfold current_entry
  cases h : drain_fields [] (drained_records env) with
  | none => simp
  | some flds =>
    by_cases h1 : env.rt_status < 0 <;>
      by_cases h2 : env.mono_status < 0 <;>
        by_cases h3 : env.cursor_status < 0 <;>
          simp [ffi_result, RRes.bind, h1, h2, h3]

theorem takeWhile_ne_all (l : List Char) :
    (l.takeWhile (fun c => c ≠ '=')).all (fun c => c ≠ '=') = true := by
  induction l with
  | nil => rfl
  | cons a t ih =>
    by_cases h : a = '='
    · simp [List.takeWhile, h]
    · simp [List.takeWhile, h, ih]

theorem dropWhile_ne_head (l : List Char)
    (h : l.any (fun c => c = '=') = true) :
    l.dropWhile (fun c => c ≠ '=') =
      '=' :: (l.dropWhile (fun c => c ≠ '=')).tail := by
  induction l with
  | nil => simp at h
  | cons a t ih =>
    by_cases ha : a = '='
    · simp [List.dropWhile_cons, ha]
    · have ht : t.any (fun c => c = '=') = true := by
        rcases List.any_eq_true.mp h with ⟨x, hx, hxe⟩
        rcases List.mem_cons.mp hx with rfl | hxt
        · exact absurd (of_decide_eq_true hxe) ha
        · exact List.any_eq_true.mpr ⟨x, hxt, hxe⟩
      rw [List.dropWhile_cons, if_pos (by simp [ha])]
      exact ih ht

theorem takeWhile_idem {α : Type} (p : α → Bool) (l : List α) :
    (l.takeWhile p).takeWhile p = l.takeWhile p := by
  induction l with
  | nil => rfl
  | cons a t ih =>
    by_cases h : p a = true
    · simp [List.takeWhile_cons, h, ih]
    · simp [List.takeWhile_cons, h]

/-! Claim theorems. -/

/-- C1 (evaluation at the failing input): the claim states that
`JournalIter` — the adapter returned by `as_iter`, documented as the non
blocking iterator — stops yielding items, without calling `wait`, the first
time `next_entry` returns `Ok(None)`. The code instead calls the unbounded
`wait()` and retries `next_entry` once: with `next_entry` scripted to return
`Ok(None)` then `Ok(Some(entryX))` and an `APPEND` wakeup scripted for
`wait`, one `Iterator::next` call consumes the wait result and yields the
entry instead of finishing; and a failing `wait` surfaces as an error
item. -/
theorem journal_iter_waits_after_ok_none :
    journal_iter_next ⟨[.ok none, .ok (some entryX)], [.ok .APPEND]⟩ =
      (.yield entryX, ⟨[], []⟩) ∧
    journal_iter_next ⟨[.ok none], [.err (.io 4)]⟩ =
      (.fail (.io 4), ⟨[], []⟩) := by
  exact ⟨by decide, by decide⟩

/-- C7 counterexample: with `next_entry` scripted to return `Ok(None)` and
then `Ok(Some(entryX))`, and the wait scripted to return `NOP`, the blocking
adapter yields an item in the same poll right after the `NOP` wakeup —
refuting the claim that on a `NoOp` wakeup it yields no further items for
that poll. -/
theorem blocking_iter_yields_after_nop :
    blocking_iter_next ⟨[.ok none, .ok (some entryX)], [.ok .NOP]⟩ =
      (.yield entryX, ⟨[], []⟩) := by
  decide

/-- C7 (amended): upon `next_entry` returning `Ok(None)` the blocking
adapter calls the wait primitive with its timeout; on any wakeup other than
`NOP` (so `APPEND` or `INVALIDATE`) it retries `next_entry` — the run
continues exactly as `next_wait` on the remaining script, so an
`INVALIDATE` wakeup is never surfaced to the caller as an item; on a `NOP`
wakeup it makes exactly one further `next_entry` call and returns that
call's result without waiting again — so the pass ends whenever that final
call returns `Ok(None)`, and the adapter does not spin. -/
theorem next_wait_retry_policy (nexts : List (RRes (Option JournalEntry)))
    (waits1 : List (RRes WakeupType)) (w : WakeupType) :
    (w ≠ .NOP →
      next_wait ⟨.ok none :: nexts, .ok w :: waits1⟩ =
        next_wait ⟨nexts, waits1⟩ ∧
      blocking_iter_next ⟨.ok none :: nexts, .ok w :: waits1⟩ =
        blocking_iter_next ⟨nexts, waits1⟩) ∧
    next_wait ⟨.ok none :: nexts, .ok .NOP :: waits1⟩ =
      ((pop_list (.ok none) nexts).1, ⟨(pop_list (.ok none) nexts).2, waits1⟩) := by
  constructor
  · intro hw
    have h : next_wait ⟨.ok none :: nexts, .ok w :: waits1⟩ =
        next_wait ⟨nexts, waits1⟩ := by
      show next_wait_go (.ok none :: nexts) (.ok w :: waits1) =
        next_wait_go nexts waits1
      simp only [next_wait_go, pop_list]
      simp [hw]
    exact ⟨h, by simp [blocking_iter_next, h]⟩
  · show next_wait_go (.ok none :: nexts) (.ok WakeupType.NOP :: waits1) = _
    simp only [next_wait_go, pop_list]
    simp

/-- Witness for C7 (amended) at concrete inputs: an `INVALIDATE` wakeup
makes the run continue on the remaining script, and after a `NOP` wakeup
the adapter returns the single following `next_entry` result. -/
theorem next_wait_retry_policy_witness :
    next_wait ⟨[.ok none, .ok (some entryX)], [.ok .INVALIDATE, .ok .NOP]⟩ =
      next_wait ⟨[.ok (some entryX)], [.ok .NOP]⟩ ∧
    next_wait ⟨[.ok none, .ok (some entryX)], [.ok .NOP]⟩ =
      (.ok (some entryX), ⟨[], []⟩) := by
  constructor
  · exact ((next_wait_retry_policy [.ok (some entryX)] [.ok .NOP]
      .INVALIDATE).1 (by decide)).1
  · have h := (next_wait_retry_policy [.ok (some entryX)] [] .APPEND).2
    simpa [pop_list] using h

/-- C2 counterexample: at `envSwallow` the enumerate primitive reports the
negative status -5 during the field drain, yet `next_entry` does not return
an `IoError`: it returns an entry built from the field drained before the
failing call plus the synthetic fields. -/
theorem next_entry_swallows_drain_error :
    envSwallow.ce.enumerate = [(1, "A=1"), (-5, "")] ∧
    next_entry envSwallow =
      .ok (some { fields := [("A", "1"), ("__REALTIME_TIMESTAMP", "7"),
        ("__MONOTONIC_TIMESTAMP", "8"), ("__CURSOR", "c1")] }) := by
  exact ⟨rfl, by decide⟩

/-- C2 (amended): for `next_entry` (and the identically-behaving
`previous_entry`) with the cursor advanced and a panic-free drain, a
negative status from the realtime-, monotonic- or cursor-primitive — the
underlying calls made after the field drain — makes the call return an
`IoError` carrying the negated status and no entry at all; a negative
status from the enumerate primitive during the field drain, however, is not
reported: the call behaves exactly as if enumeration had ended cleanly
there (the drain is truncated at the first non-positive status), so the
entry built from the fields drained before the failing call is returned. -/
theorem next_entry_error_propagation (env : NextEnv)
    (hadv : 0 < env.advance_status) (flds : Fields)
    (hdrain : drain_fields [] (drained_records env.ce) = some flds) :
    (env.ce.rt_status < 0 →
      next_entry env = .err (.io (-env.ce.rt_status))) ∧
    (0 ≤ env.ce.rt_status → env.ce.mono_status < 0 →
      next_entry env = .err (.io (-env.ce.mono_status))) ∧
    (0 ≤ env.ce.rt_status → 0 ≤ env.ce.mono_status → env.ce.cursor_status < 0 →
      next_entry env = .err (.io (-env.ce.cursor_status))) ∧
    next_entry env =
      next_entry { env with ce := { env.ce with
        enumerate := env.ce.enumerate.takeWhile (fun p => 0 < p.1) } } ∧
    previous_entry env = next_entry env := by
  have hnlt : ¬ env.advance_status < 0 := by omega
  have hnz : env.advance_status ≠ 0 := by omega
  have hcur : next_entry env = current_entry env.ce := by
    simp [next_entry, ffi_result, RRes.bind, hnlt, hnz]
  refine ⟨?_, ?_, ?_, ?_, rfl⟩
  · intro hrt
    rw [hcur]
    simp [current_entry, hdrain, ffi_result, RRes.bind, hrt]
  · intro hrt hmono
    rw [hcur]
    simp [current_entry, hdrain, ffi_result, RRes.bind, not_lt.mpr hrt, hmono]
  · intro hrt hmono hcurs
    rw [hcur]
    simp [current_entry, hdrain, ffi_result, RRes.bind, not_lt.mpr hrt,
      not_lt.mpr hmono, hcurs]
  · have hnext' : next_entry { env with ce := { env.ce with
        enumerate := env.ce.enumerate.takeWhile (fun p => 0 < p.1) } } =
        current_entry { env.ce with
          enumerate := env.ce.enumerate.takeWhile (fun p => 0 < p.1) } := by
      simp [next_entry, ffi_result, RRes.bind, hnlt, hnz]
    have hdr : drained_records { env.ce with
        enumerate := env.ce.enumerate.takeWhile (fun p => 0 < p.1) } =
        drained_records env.ce := by
      simp [drained_records, takeWhile_idem]
    rw [hcur, hnext']
    simp [current_entry, hdr]

/-- Witness for C2 (amended) at a concrete input: the realtime primitive
failing with -7 after a successful drain makes `next_entry` return the
`IoError` with code 7 and no entry. -/
theorem next_entry_error_propagation_witness :
    next_entry envAfterFail = .err (.io 7) := by
  have h := (next_entry_error_propagation envAfterFail (by decide)
    [("A", "1")] (by decide)).1 (by decide)
  simpa [envAfterFail] using h

/-- C5: `next_entry` returns `Ok(None)` — not an error — exactly when the
advance primitive `sd_journal_next` returns 0; `previous_entry` behaves
symmetrically over `sd_journal_previous`; and for both, a negative advance
status yields an `IoError` whose code is the negated status. -/
theorem next_entry_none_iff_no_advance (env : NextEnv) :
    (next_entry env = .ok none ↔ env.advance_status = 0) ∧
    (previous_entry env = .ok none ↔ env.advance_status = 0) ∧
    (env.advance_status < 0 →
      next_entry env = .err (.io (-env.advance_status)) ∧
      previous_entry env = .err (.io (-env.advance_status))) := by
  have hprev : previous_entry env = next_entry env := rfl
  have key : next_entry env = RRes.ok none ↔ env.advance_status = 0 := by
    constructor
    · intro h
      by_cases hlt : env.advance_status < 0
      · simp [next_entry, ffi_result, RRes.bind, hlt] at h
      · by_cases hz : env.advance_status = 0
        · exact hz
        · exact absurd (by simpa [next_entry, ffi_result, RRes.bind, hlt, hz]
            using h) (current_entry_ne_ok_none env.ce)
    · intro h
      simp [next_entry, ffi_result, RRes.bind, h]
  refine ⟨key, by rw [hprev]; exact key, fun hlt => ?_⟩
  have : next_entry env = .err (.io (-env.advance_status)) := by
    simp [next_entry, ffi_result, RRes.bind, hlt]
  exact ⟨this, by rw [hprev]; exact this⟩

/-- Witness for C5 at concrete inputs: an advance status of 0 gives
`Ok(None)` and an advance status of -3 gives an `IoError` with code 3. -/
theorem next_entry_none_iff_no_advance_witness :
    next_entry envZero = .ok none ∧
    next_entry envNeg = .err (.io 3) ∧
    previous_entry envNeg = .err (.io 3) := by
  refine ⟨(next_entry_none_iff_no_advance envZero).1.mpr (by decide), ?_, ?_⟩
  · have h := (next_entry_none_iff_no_advance envNeg).2.2 (by decide)
    simpa [envNeg] using h.1
  · have h := (next_entry_none_iff_no_advance envNeg).2.2 (by decide)
    simpa [envNeg] using h.2

/-- C10: `wait_usec` (hence `wait` and `wait_timeout`) classifies the wait
primitive's statuses 0, 1 and 2 as `NOP`, `APPEND` and `INVALIDATE`
respectively, and any other non-negative status fails with an `EINVAL`
error instead of being coerced to a `WakeupType`. -/
theorem wait_wakeup_classification (env : WaitEnv) (usec : Nat) (d : Duration) :
    (wait_usec env usec = .ok .NOP ↔ env.wait_status = 0) ∧
    (wait_usec env usec = .ok .APPEND ↔ env.wait_status = 1) ∧
    (wait_usec env usec = .ok .INVALIDATE ↔ env.wait_status = 2) ∧
    (0 ≤ env.wait_status → env.wait_status ≠ 0 → env.wait_status ≠ 1 →
      env.wait_status ≠ 2 →
      wait_usec env usec = .err (.io EINVAL) ∧
      wait env = .err (.io EINVAL) ∧
      (d.as_micros ≤ U64_MAX → wait_timeout env d = .err (.io EINVAL))) := by
  have hwu : ∀ u : Nat, wait_usec env u =
      if env.wait_status < 0 then .err (.io (-env.wait_status))
      else if env.wait_status = 0 then .ok .NOP
      else if env.wait_status = 1 then .ok .APPEND
      else if env.wait_status = 2 then .ok .INVALIDATE
      else .err (.io EINVAL) := by
    intro u
    unfold wait_usec ffi_result WakeupType.try_from
    split_ifs <;> simp_all [RRes.bind]
  refine ⟨?_, ?_, ?_, ?_⟩
  · rw [hwu]; split_ifs <;> simp_all
    omega
  · rw [hwu]; split_ifs <;> simp_all
    omega
  · rw [hwu]; split_ifs <;> simp_all
    omega
  · intro hge h0 h1 h2
    have hwr : wait_usec env usec = .err (.io EINVAL) := by
      rw [hwu]; split_ifs <;> first | rfl | omega
    refine ⟨hwr, ?_, fun hd => ?_⟩
    · show wait_usec env U64_MAX = _
      rw [hwu]; split_ifs <;> first | rfl | omega
    · have hd' : duration_to_usec d = .ok (d.as_micros % 2 ^ 64) := by
        unfold duration_to_usec
        rw [if_neg (not_lt.mpr hd)]
      rw [wait_timeout, hd', RRes.bind, hwu]
      split_ifs <;> first | rfl | omega

/-- Witness for C10 at concrete inputs: status 7 is rejected with `EINVAL`,
status 2 maps to `INVALIDATE`. -/
theorem wait_wakeup_classification_witness :
    wait_usec ⟨7⟩ 100 = .err (.io EINVAL) ∧
    wait ⟨7⟩ = .err (.io EINVAL) ∧
    wait_usec ⟨2⟩ 100 = .ok .INVALIDATE := by
  have h := (wait_wakeup_classification ⟨7⟩ 100 ⟨0, 0⟩).2.2.2
    (by decide) (by decide) (by decide) (by decide)
  exact ⟨h.1, h.2.1, (wait_wakeup_classification ⟨2⟩ 100 ⟨0, 0⟩).2.2.1.mpr rfl⟩

/-- C6: converting a duration to a microsecond count fails with the overflow
error (`EOVERFLOW`) when the microsecond value exceeds `u64::MAX`, and
otherwise yields exactly the microsecond value with no truncation; the same
holds through `set_timeout` (the blocking iterator's stored timeout) and
`wait_timeout`. -/
theorem duration_to_usec_no_truncation (d : Duration) (it : JournalBlockingIter)
    (env : WaitEnv) :
    (d.as_micros ≤ U64_MAX →
      duration_to_usec d = .ok d.as_micros ∧
      set_timeout it d = .ok { it with timeout := d.as_micros }) ∧
    (U64_MAX < d.as_micros →
      duration_to_usec d = .err (.io EOVERFLOW) ∧
      set_timeout it d = .err (.io EOVERFLOW) ∧
      wait_timeout env d = .err (.io EOVERFLOW)) := by
  constructor
  · intro h
    have hU : U64_MAX = 2 ^ 64 - 1 := rfl
    have hpos : 0 < 2 ^ 64 := Nat.pos_pow_of_pos 64 (by norm_num)
    have hlt : d.as_micros < 2 ^ 64 := by omega
    have hd : duration_to_usec d = .ok d.as_micros := by
      unfold duration_to_usec
      rw [if_neg (not_lt.mpr h), Nat.mod_eq_of_lt hlt]
    exact ⟨hd, by simp [set_timeout, hd, RRes.bind]⟩
  · intro h
    have hd : duration_to_usec d = .err (.io EOVERFLOW) := by
      unfold duration_to_usec
      rw [if_pos h]
    exact ⟨hd, by simp [set_timeout, hd, RRes.bind],
      by simp [wait_timeout, hd, RRes.bind]⟩

/-- Witness for C6 at concrete inputs: 2 s + 500999 ns is exactly 2000500 µs,
and 2^64 seconds overflows. -/
theorem duration_to_usec_no_truncation_witness :
    duration_to_usec ⟨2, 500999⟩ = .ok 2000500 ∧
    set_timeout itW ⟨2, 500999⟩ = .ok { itW with timeout := 2000500 } ∧
    duration_to_usec ⟨2 ^ 64, 0⟩ = .err (.io EOVERFLOW) := by
  have hm : Duration.as_micros ⟨2, 500999⟩ = 2000500 := by decide
  have h1 := (duration_to_usec_no_truncation ⟨2, 500999⟩ itW ⟨0⟩).1
    (by rw [hm]; decide)
  have h2 := (duration_to_usec_no_truncation ⟨2 ^ 64, 0⟩ itW ⟨0⟩).2
    (by show U64_MAX < Duration.as_micros ⟨2 ^ 64, 0⟩
        unfold Duration.as_micros U64_MAX
        norm_num)
  refine ⟨?_, ?_, h2.1⟩
  · rw [← hm]; exact h1.1
  · rw [← hm]; exact h1.2

/-- C3 (spec-modelled `submit`): submission validates every field name
before any I/O — if some field name is invalid the whole submission fails
with a validation error and the store is unchanged (zero new records from
the call); when all names are valid, the serialized `NAME=value` records are
passed to the append primitive as one atomic multi-field batch, whose
negative status maps to an `IoError` with the negated code. -/
theorem submit_validates_then_appends_atomically (e : JournalEntry)
    (store : List (List String)) (status : Int) :
    (∀ p, p ∈ e.fields → valid_field_name p.1 = false →
      submit e store status = (.err .validation, store)) ∧
    ((e.fields.all fun p => valid_field_name p.1) = true →
      submit e store status =
        (if status < 0 then .err (.io (-status)) else .ok (),
         if 0 ≤ status then
           store ++ [e.fields.map fun p => p.1 ++ "=" ++ p.2]
         else store)) := by
  constructor
  · intro p hp hbad
    have hall : (e.fields.all fun p => valid_field_name p.1) = false := by
      cases hall : e.fields.all fun p => valid_field_name p.1 with
      | false => rfl
      | true =>
        have htrue := List.all_eq_true.mp hall p hp
        rw [hbad] at htrue
        exact Bool.noConfusion htrue
    simp [submit, hall]
  · intro hall
    simp [submit, send, sd_journal_sendv, hall]

/-- Witness for C3 at concrete inputs: one invalid name (`2BAD`) among valid
ones fails the whole submission leaving the store unchanged; an all-valid
entry is appended as one batch. -/
theorem submit_validates_then_appends_atomically_witness :
    submit entryBadName [["OLD=1"]] 0 = (.err .validation, [["OLD=1"]]) ∧
    submit entryGood [] 0 = (.ok (), [["MESSAGE=hi", "PRIORITY=6"]]) := by
  constructor
  · exact (submit_validates_then_appends_atomically entryBadName
      [["OLD=1"]] 0).1 ("2BAD", "x") (by decide) (by decide)
  · have h := (submit_validates_then_appends_atomically entryGood [] 0).2
      (by decide)
    rw [h]
    decide

/-- C4: each raw record drained by `current_entry` is split at the first
`'='` only — the name is the `'='`-free part before it, and the value (which
may itself contain `'='`) restores the record when rejoined with `'='` — and
after the drain the synthetic fields `__REALTIME_TIMESTAMP`,
`__MONOTONIC_TIMESTAMP` and `__CURSOR` are inserted from the dedicated
primitives, overwriting any same-named field the enumeration yielded, while
every other field keeps its drained value. -/
theorem current_entry_split_and_synthetic_override :
    (∀ s : String, s.data.any (fun c => c = '=') = true →
      ∃ v, eq_split_value s = some v ∧
        eq_split_name s ++ "=" ++ v = s ∧
        (eq_split_name s).data.all (fun c => c ≠ '=') = true) ∧
    (∀ (env : CurrentEntryEnv) (flds : Fields),
      0 ≤ env.rt_status → 0 ≤ env.mono_status → 0 ≤ env.cursor_status →
      drain_fields [] (drained_records env) = some flds →
      ∃ e, current_entry env = .ok (some e) ∧
        lookupField e.fields ("__REALTIME_TIMESTAMP") =
          some (toString env.rt_val) ∧
        lookupField e.fields ("__MONOTONIC_TIMESTAMP") =
          some (toString env.mono_val) ∧
        lookupField e.fields ("__CURSOR") = some env.cursor_val ∧
        ∀ k, k ≠ "__REALTIME_TIMESTAMP" → k ≠ "__MONOTONIC_TIMESTAMP" →
          k ≠ "__CURSOR" → lookupField e.fields k = lookupField flds k) := by
  constructor
  · intro s hs
    refine ⟨String.mk ((s.data.dropWhile (fun c => c ≠ '=')).tail),
      by simp [eq_split_value, hs], ?_, takeWhile_ne_all s.data⟩
    apply String.ext
    show (s.data.takeWhile (fun c => c ≠ '=') ++ ['=']) ++
        (s.data.dropWhile (fun c => c ≠ '=')).tail = s.data
    rw [List.append_assoc, List.singleton_append, ← dropWhile_ne_head s.data hs,
      List.takeWhile_append_dropWhile]
  · intro env flds hrt hmono hcurs hdrain
    refine ⟨⟨insertField (insertField (insertField flds
        ("__REALTIME_TIMESTAMP") (toString env.rt_val))
        ("__MONOTONIC_TIMESTAMP") (toString env.mono_val))
        ("__CURSOR") env.cursor_val⟩, ?_, ?_, ?_, ?_, ?_⟩
    · simp [current_entry, hdrain, ffi_result, RRes.bind, not_lt.mpr hrt,
        not_lt.mpr hmono, not_lt.mpr hcurs]
    · rw [lookupField_insertField_ne _ _ _ _ (by decide),
        lookupField_insertField_ne _ _ _ _ (by decide),
        lookupField_insertField_self]
    · rw [lookupField_insertField_ne _ _ _ _ (by decide),
        lookupField_insertField_self]
    · rw [lookupField_insertField_self]
    · intro k hk1 hk2 hk3
      rw [lookupField_insertField_ne _ _ _ _ (Ne.symm hk3),
        lookupField_insertField_ne _ _ _ _ (Ne.symm hk2),
        lookupField_insertField_ne _ _ _ _ (Ne.symm hk1)]

/-- Witness for C4 at concrete inputs: the record `FOO=a=b` splits into
`FOO` and `a=b`, and at `ceOverride` the drained fake `__CURSOR` field is
overwritten by the synthetic cursor value while `FOO` keeps its drained
value. -/
theorem current_entry_split_and_synthetic_override_witness :
    (∃ v, eq_split_value ("FOO=a=b") = some v ∧
      eq_split_name ("FOO=a=b") ++ "=" ++ v = "FOO=a=b" ∧
      (eq_split_name ("FOO=a=b")).data.all (fun c => c ≠ '=') = true) ∧
    (∃ e, current_entry ceOverride = .ok (some e) ∧
      lookupField e.fields ("__REALTIME_TIMESTAMP") =
        some (toString ceOverride.rt_val) ∧
      lookupField e.fields ("__MONOTONIC_TIMESTAMP") =
        some (toString ceOverride.mono_val) ∧
      lookupField e.fields ("__CURSOR") = some ceOverride.cursor_val ∧
      ∀ k, k ≠ "__REALTIME_TIMESTAMP" → k ≠ "__MONOTONIC_TIMESTAMP" →
        k ≠ "__CURSOR" → lookupField e.fields k =
          lookupField [("FOO", "a=b"), ("__CURSOR", "fake")] k) := by
  exact ⟨current_entry_split_and_synthetic_override.1 ("FOO=a=b") (by decide),
    current_entry_split_and_synthetic_override.2 ceOverride
      [("FOO", "a=b"), ("__CURSOR", "fake")] (by decide) (by decide)
      (by decide) (by decide)⟩

/-- C9: the wallclock-time accessor returns the parsed
`_SOURCE_REALTIME_TIMESTAMP` value when that field is present and parses as
a 64-bit integer; otherwise it falls back to the parsed
`__REALTIME_TIMESTAMP` value; and it returns `none` exactly when neither
yields a value. -/
theorem get_wallclock_time_prefers_source (e : JournalEntry) :
    (∀ v t, e.get_field_string_lossy ("_SOURCE_REALTIME_TIMESTAMP") = some v →
      parse_i64 v = some t →
      e.get_wallclock_time = some { timestamp_us := t }) ∧
    ((e.get_field_string_lossy ("_SOURCE_REALTIME_TIMESTAMP")).bind parse_i64 =
        none →
      e.get_wallclock_time = e.get_reception_wallclock_time) ∧
    (e.get_wallclock_time = none ↔
      e.get_source_wallclock_time = none ∧
      e.get_reception_wallclock_time = none) := by
  refine ⟨?_, ?_, ?_⟩
  · intro v t hv ht
    simp [JournalEntry.get_wallclock_time,
      JournalEntry.get_source_wallclock_time, hv, ht, Option.or]
  · intro hnone
    simp [JournalEntry.get_wallclock_time,
      JournalEntry.get_source_wallclock_time, hnone, Option.or]
  · cases hsrc : e.get_source_wallclock_time <;>
      cases hrec : e.get_reception_wallclock_time <;>
        simp [JournalEntry.get_wallclock_time, hsrc, hrec, Option.or]

/-- Witness for C9 at a concrete entry carrying both timestamp fields: the
source value 5 wins over the reception value 9. -/
theorem get_wallclock_time_prefers_source_witness :
    JournalEntry.get_wallclock_time entryBothTimes =
      some { timestamp_us := 5 } := by
  exact (get_wallclock_time_prefers_source entryBothTimes).1 ("5") 5
    (by decide) (by decide)

/-- C8: a string containing an embedded NUL byte passed as a cursor token to
`seek(Cursor(token))`, or as the namespace argument of `open_namespace`,
fails with a validation error before the corresponding store primitive is
invoked (the list of invoked primitives is empty, so there is no I/O and no
state change). -/
theorem nul_validation_before_primitive (cur ns : String) (senv : SeekEnv)
    (cfg : JournalReaderConfig) (oenv : OpenEnv) :
    (has_nul cur = true → seek senv (.Cursor cur) = (.err .validation, [])) ∧
    (has_nul ns = true → open_namespace cfg ns oenv = (.err .validation, [])) := by
  constructor
  · intro h
    simp [seek, h]
  · intro h
    simp [open_namespace, h]

/-- Witness for C8 at a concrete NUL-carrying string. -/
theorem nul_validation_before_primitive_witness :
    has_nul nulString = true ∧
    seek ⟨0, 0, 0⟩ (.Cursor nulString) = (.err .validation, []) ∧
    open_namespace cfgW nulString ⟨0⟩ = (.err .validation, []) := by
  have h := nul_validation_before_primitive nulString nulString ⟨0, 0, 0⟩ cfgW ⟨0⟩
  exact ⟨by decide, h.1 (by decide), h.2 (by decide)⟩

end Journald
